import Mathlib

/-!
# Verification of the hdmi-in-display capture/display program

Shallow embedding of the parts of the program the specification claims
talk about:

* the per-tile offset file loader (`parseXYLine`,
  `loadOffsetsFromModuleFiles` in `hdmi_simple_display.cpp` and
  `PR_DESCRIPTION.md`),
* the tile-grid fragment shader (`shader.frag.glsl`): gap handling,
  grid-height computation, per-tile offset rectangles, rotation/flip,
* the runtime key-press control surface (flip/rotation state), and
* the recovery supervisor of the PR variant (`PR_DESCRIPTION.md`):
  EINVAL counting, soft stream restart, background reopen with
  verification, the frame-arrival timeout with its recovery grace window.

Conventions: GLSL `float` values are modelled as `ℚ` (the claims are exact
arithmetic identities about the algorithms), GLSL/C++ `int` as `ℤ`, and
the `ivec2`/`vec2` pairs as products.  Fallible parsing returns `Option`.
-/

namespace HdmiDisplay

/-! ## Offset file parsing

Embedding of `parseXYLine` and `loadOffsetsFromModuleFiles`
(`hdmi_simple_display.cpp` lines 228-280, identically
`PR_DESCRIPTION.md` lines 507-548).  A file is a list of text lines; a
missing module file is `none`.  C++ `int` overflow is not modelled (the
claims do not exercise it). -/

/-- The whitespace set of `find_first_not_of(" \t\r\n")` used for trimming. -/
def isTrimWs (c : Char) : Bool :=
  c = ' ' || c = '\t' || c = '\r' || c = '\n'

/-- The `std::isspace` set skipped by `istream` formatted extraction. -/
def isStreamWs (c : Char) : Bool :=
  c = ' ' || c = '\t' || c = '\n' || c = Char.ofNat 11 || c = Char.ofNat 12 || c = '\r'

/-- Trim leading and trailing characters of the `" \t\r\n"` set, as the
`find_first_not_of`/`find_last_not_of` pair in `parseXYLine` does. -/
def trimChars (cs : List Char) : List Char :=
  ((cs.dropWhile isTrimWs).reverse.dropWhile isTrimWs).reverse

/-- Decimal digit run to a number (`istream` accumulates base-10 digits). -/
def digitsToNat (ds : List Char) : ℕ :=
  ds.foldl (fun a c => a * 10 + (c.toNat - Char.toNat '0')) 0

/-- Read an unsigned decimal integer at the head of the stream; fails when
no digit is present, and leaves the unconsumed rest. -/
def readDigits (cs : List Char) : Option (ℤ × List Char) :=
  let ds := cs.takeWhile Char.isDigit
  if ds.isEmpty then none
  else some ((digitsToNat ds : ℤ), cs.dropWhile Char.isDigit)

/-- Embeds `istream >> int`: skip whitespace, optional sign, then digits. -/
def readInt (cs : List Char) : Option (ℤ × List Char) :=
  match cs.dropWhile isStreamWs with
  | '-' :: rest => (readDigits rest).map (fun p => (-p.1, p.2))
  | '+' :: rest => readDigits rest
  | other => readDigits other

/-- Embeds `parseXYLine`: trim the line; an empty or `#`-initial line fails;
otherwise extract two integers as `iss >> x >> y` does. -/
def parseXYLine (line : String) : Option (ℤ × ℤ) :=
  match trimChars line.toList with
  | [] => none
  | c :: _ =>
    if c = '#' then none
    else
      match readInt (trimChars line.toList) with
      | none => none
      | some (x, rest) =>
        match readInt rest with
        | none => none
        | some (y, _) => some (x, y)

/-- Offset table capacity: the `offsetxy1[150]` uniform / `out.assign(150*2, 0)`. -/
def offsetCapacity : ℕ := 150

/-- One iteration of the fill loop of `loadOffsetsFromModuleFiles`: a line
`parseXYLine` rejects contributes nothing; a parsed `(x, y)` pair goes to
the next table slot while the table is not full. -/
def fillStep (a : List (ℤ × ℤ)) (line : String) : List (ℤ × ℤ) :=
  if a.length < offsetCapacity then
    match parseXYLine line with
    | some p => a ++ [p]
    | none => a
  else a

/-- The per-file fill loop of `loadOffsetsFromModuleFiles`: walk the lines,
appending parsed entries at the running fill position. -/
def fillEntries (acc : List (ℤ × ℤ)) (lines : List String) : List (ℤ × ℤ) :=
  lines.foldl fillStep acc

/-- All lines of the three module files in order (a missing file
contributes none); used to state what the loader produces. -/
def moduleLines (files : List (Option (List String))) : List String :=
  (files.map (fun f => f.getD [])).flatten

/-- Embeds `loadOffsetsFromModuleFiles`: the table starts as 150 `(0,0)` entries;
each found module file appends its parsed entries at the single running
fill index (a missing file contributes nothing); the zero tail survives
for every slot never filled. -/
def loadOffsetsFromModuleFiles (files : List (Option (List String))) : List (ℤ × ℤ) :=
  let filled := files.foldl (fun a f => match f with
    | some lines => fillEntries a lines
    | none => a) []
  filled ++ List.replicate (offsetCapacity - filled.length) (0, 0)

/-! ## Tile Grid Mapper (`shader.frag.glsl`)

GLSL `float` is modelled as `ℚ`, GLSL `int` as `ℤ`.  `int(florat)` casts
truncate toward zero; GLSL `clamp(x, lo, hi) = min(max(x, lo), hi)`. -/

/-- C-style truncation of a rational toward zero (the GLSL `int(...)`
cast): floor for nonnegative values, ceiling for negative ones. -/
def truncQ (q : ℚ) : ℤ := if 0 ≤ q then ⌊q⌋ else ⌈q⌉

/-- GLSL `clamp` for scalars. -/
def clampQ (x lo hi : ℚ) : ℚ := min (max x lo) hi

/-- C++/GLSL `clamp` for ints (used for `segmentIndex` and the offset index). -/
def clampI (x lo hi : ℤ) : ℤ := min (max x lo) hi

/-- Embeds `rotate90_centered`: rotate `uv` about `(0.5, 0.5)` by `k` quarter
turns clockwise (`shader.frag.glsl` lines 53-71).  `k & 3` on a two's
complement int equals `k.emod 4`. -/
def rotate90_centered (uv : ℚ × ℚ) (k : ℤ) : ℚ × ℚ :=
  let p : ℚ × ℚ := (uv.1 - 1/2, uv.2 - 1/2)
  let kk := k.emod 4
  let r : ℚ × ℚ :=
    if kk = 0 then p
    else if kk = 1 then (p.2, -p.1)
    else if kk = 2 then (-p.1, -p.2)
    else (-p.2, p.1)
  (r.1 + 1/2, r.2 + 1/2)

/-- Embeds `isGapZero`: scan the first `min(gap_count, 8)` entries of the
`gap_rows[8]` uniform for `gapIdx` (`shader.frag.glsl` lines 73-79). -/
def isGapZero (gapCount : ℤ) (gapRows : List ℤ) (gapIdx : ℤ) : Bool :=
  (List.range 8).any
    (fun (i : ℕ) => decide ((i : ℤ) < gapCount) && decide (gapRows.getD i 0 = gapIdx))

/-- Embeds `computeTotalGridHeight`: sum of all row heights, adding the vertical
spacing after every row boundary not present in the gap set
(`shader.frag.glsl` lines 82-91). -/
def computeTotalGridHeight (numRows : ℤ) (tileH spacingY : ℚ)
    (gapCount : ℤ) (gapRows : List ℤ) : ℚ :=
  (List.range numRows.toNat).foldl
    (fun (h : ℚ) (r : ℕ) =>
      h + tileH
        + (if decide ((r : ℤ) < numRows - 1) && !isGapZero gapCount gapRows ((r : ℤ) + 1)
           then spacingY else 0))
    0

/-- The shader uniforms consumed by `main` of `shader.frag.glsl`
(geometry, per-tile offset table, transform state, gap set). -/
structure ShaderConfig where
  fullInputW : ℚ
  fullInputH : ℚ
  segmentsX : ℤ
  segmentsY : ℤ
  subBlockW : ℚ
  subBlockH : ℚ
  tileW : ℚ
  tileH : ℚ
  spacingX : ℚ
  spacingY : ℚ
  marginX : ℚ
  numTilesPerRow : ℤ
  numTilesPerCol : ℤ
  offsetxy1 : List (ℤ × ℤ)
  rot : ℤ
  flipX : ℤ
  flipY : ℤ
  gapCount : ℤ
  gapRows : List ℤ
  inputTilesTopToBottom : ℤ
  segmentIndex : ℤ

namespace ShaderConfig

/-- Total grid height with this configuration's gap uniforms. -/
def totalGridH (cfg : ShaderConfig) : ℚ :=
  computeTotalGridHeight cfg.numTilesPerCol cfg.tileH cfg.spacingY cfg.gapCount cfg.gapRows

/-- The `tileCol` computation of `main`:
`int((outPx.x - u_marginX) / (u_tileW + u_spacingX))`. -/
def tileColOf (cfg : ShaderConfig) (outPxX : ℚ) : ℤ :=
  truncQ ((outPxX - cfg.marginX) / (cfg.tileW + cfg.spacingX))

/-- The row-search loop of `main` (lines 114-126): walk rows from the
top accumulating row heights (plus spacing unless the following boundary
is a gap) until `yFromTop` lands inside a row; `none` models the loop
leaving `tileRow = -1`. -/
def findTileRowAux (cfg : ShaderConfig) (yFromTop : ℚ) :
    List ℕ → ℚ → Option ℕ
  | [], _ => none
  | r :: rs, yAcc =>
    if yFromTop ≥ yAcc ∧ yFromTop < yAcc + cfg.tileH then some r
    else
      findTileRowAux cfg yFromTop rs
        (if isGapZero cfg.gapCount cfg.gapRows ((r : ℤ) + 1)
         then yAcc + cfg.tileH
         else yAcc + cfg.tileH + cfg.spacingY)

/-- Row search over rows `0 .. numTilesPerCol-1` starting at the top. -/
def findTileRow (cfg : ShaderConfig) (yFromTop : ℚ) : Option ℕ :=
  findTileRowAux cfg yFromTop (List.range cfg.numTilesPerCol.toNat) 0

/-- The `tileStartY_top` accumulation of `main` (lines 139-143). -/
def tileStartYTop (cfg : ShaderConfig) (row : ℕ) : ℚ :=
  (List.range row).foldl
    (fun (acc : ℚ) (r : ℕ) =>
      acc + cfg.tileH
        + (if isGapZero cfg.gapCount cfg.gapRows ((r : ℤ) + 1) then 0 else cfg.spacingY))
    0

/-- The nominal (un-offset) tile rectangle origin: `tileStartX` and
`tileStartY` of `main` (lines 135 and 144). -/
def nominalTileStart (cfg : ShaderConfig) (col : ℤ) (row : ℕ) : ℚ × ℚ :=
  (cfg.marginX + (col : ℚ) * (cfg.tileW + cfg.spacingX),
   cfg.totalGridH - (cfg.tileStartYTop row + cfg.tileH))

/-- The per-tile offset looked up at the clamped row-major index
(lines 147-149). -/
def tileOffset (cfg : ShaderConfig) (col : ℤ) (row : ℕ) : ℤ × ℤ :=
  let idx := (row : ℤ) * cfg.numTilesPerRow + col
  cfg.offsetxy1.getD (clampI idx 0 149).toNat (0, 0)

/-- Embeds `tileRectStart`: the displayed tile rectangle origin, the nominal
origin shifted by the tile's offset (line 152). -/
def tileRectStart (cfg : ShaderConfig) (col : ℤ) (row : ℕ) : ℚ × ℚ :=
  ((cfg.nominalTileStart col row).1 + ((cfg.tileOffset col row).1 : ℚ),
   (cfg.nominalTileStart col row).2 + ((cfg.tileOffset col row).2 : ℚ))

/-- Embeds `main` of `shader.frag.glsl` up to the texture sample: maps an output
pixel to the transformed source sample coordinate `uvTrans`, or `none`
where the shader writes the background color (quick reject, or pixel
outside the offset tile rectangle). -/
def shaderMapPixel (cfg : ShaderConfig) (outPx : ℚ × ℚ) : Option (ℚ × ℚ) :=
  let segIdx := clampI cfg.segmentIndex 1 16 - 1
  let segCol := segIdx.tmod cfg.segmentsX
  let segRow := segIdx.tdiv cfg.segmentsX
  let subBlockOrigin : ℚ × ℚ := ((segCol : ℚ) * cfg.subBlockW, (segRow : ℚ) * cfg.subBlockH)
  let tileCol := cfg.tileColOf outPx.1
  let yFromTop := cfg.totalGridH - outPx.2
  match cfg.findTileRow yFromTop with
  | none => none
  | some row =>
    if tileCol < 0 ∨ tileCol ≥ cfg.numTilesPerRow then none
    else
      let rs := cfg.tileRectStart tileCol row
      if outPx.1 ≥ rs.1 ∧ outPx.1 < rs.1 + cfg.tileW
          ∧ outPx.2 ≥ rs.2 ∧ outPx.2 < rs.2 + cfg.tileH then
        let pxInTileX := outPx.1 - rs.1
        let pxInTileY := outPx.2 - rs.2
        let sourceTileRow : ℤ :=
          if cfg.inputTilesTopToBottom = 1 then (row : ℤ)
          else cfg.numTilesPerCol - 1 - (row : ℤ)
        let fetchX := cfg.tileW * (tileCol : ℚ) + pxInTileX
        let fetchY := cfg.tileH * (sourceTileRow : ℚ) + pxInTileY
        let ix := clampQ (subBlockOrigin.1 + fetchX) 0 (cfg.fullInputW - 1)
        let iy := clampQ (subBlockOrigin.2 + fetchY) 0 (cfg.fullInputH - 1)
        let t0 := rotate90_centered (ix / cfg.fullInputW, iy / cfg.fullInputH) cfg.rot
        let t1 := if cfg.flipX = 1 then (1 - t0.1, t0.2) else t0
        let t2 := if cfg.flipY = 1 then (t1.1, 1 - t1.2) else t1
        some (clampQ t2.1 0 1, clampQ t2.2 0 1)
      else none

end ShaderConfig

/-- A small concrete configuration used to evaluate the mapper: one
column of three 50×100 tiles starting at margin 100, no spacing, no gaps,
and a single offset entry (-3, 5), so tile (0,0) has nominal origin
(100, 200) and displays at (97, 205). -/
def demoConfig : ShaderConfig :=
  { fullInputW := 3840, fullInputH := 2160,
    segmentsX := 3, segmentsY := 3,
    subBlockW := 1280, subBlockH := 720,
    tileW := 50, tileH := 100,
    spacingX := 0, spacingY := 0, marginX := 100,
    numTilesPerRow := 1, numTilesPerCol := 3,
    offsetxy1 := [(-3, 5)],
    rot := 0, flipX := 0, flipY := 0,
    gapCount := 0, gapRows := [0, 0, 0, 0, 0, 0, 0, 0],
    inputTilesTopToBottom := 1, segmentIndex := 1 }

/-! ## Runtime control surface (key handlers)

The SDL key handlers mutating the transform state: `SDLK_h`, `SDLK_v`
toggle the flips, `SDLK_r` steps the rotation by `(rotation + 2) & 3`
(`hdmi_simple_display.cpp` lines 858-879, `PR_DESCRIPTION.md`
lines 1299-1301). -/

/-- The transform state owned by the render thread. -/
structure RenderControlState where
  flipX : ℤ
  flipY : ℤ
  rotation : ℤ

/-- Keys of the runtime control surface that mutate the transform state. -/
inductive ControlKey where
  | keyH
  | keyV
  | keyR

/-- C++ `flip = !flip` on an `int` holding 0/1. -/
def toggleFlip (x : ℤ) : ℤ := if x = 0 then 1 else 0

/-- One key-press step of the control surface.  `SDLK_r` performs
`rotation = (rotation + 2) & 3`; on two's complement ints `& 3` is
`emod 4`. -/
def controlStep (s : RenderControlState) (k : ControlKey) : RenderControlState :=
  match k with
  | .keyH => { s with flipX := toggleFlip s.flipX }
  | .keyV => { s with flipY := toggleFlip s.flipY }
  | .keyR => { s with rotation := (s.rotation + 2).emod 4 }

/-- Initial transform state of the PR variant (`PR_DESCRIPTION.md`
line 795: `flip_x = 0, flip_y = 1, rotation = 0`). -/
def initControlState : RenderControlState := ⟨0, 1, 0⟩

/-- States reachable through the runtime control surface. -/
inductive ReachableControl : RenderControlState → Prop where
  | init : ReachableControl initControlState
  | step (s : RenderControlState) (k : ControlKey) :
      ReachableControl s → ReachableControl (controlStep s k)

/-! ## Recovery supervisor (`PR_DESCRIPTION.md` main loop + helpers)

The capture-side recovery logic: the main-loop dequeue branches
(lines 1019-1157), the SOURCE_CHANGE event branch (1161-1189), the
frame-arrival timeout with recovery grace (1191-1206), and the
background reopen machinery (`manual_restart_v4l_only` 836-915,
`start_background_reopen` 918-988).  Thread interleaving is embedded as
a step function over events; background-thread actions are events
guarded by `reopenInProgress` (the `auto_reopen_in_progress` flag).
Timestamps are milliseconds as `ℤ`.  Ghost counters record device-side
effects: `handleGen` counts full close+reopen cycles of the device
handle, `streamRestarts` counts invocations of `restart_v4l_stream`,
`verifiedDequeues` counts verified nonzero-byte dequeue+requeue pairs of
the background verification loop. -/

/-- Supervisor constants (`PR_DESCRIPTION.md` lines 157-161). -/
def PATTERN_TIMEOUT_MS : ℤ := 800

/-- Grace window after a recovery during which the frame-arrival timeout
is suppressed (`PR_DESCRIPTION.md` line 158). -/
def RECOVERY_GRACE_MS : ℤ := 3000

/-- Consecutive-EINVAL threshold that triggers the synchronous stream
restart (`PR_DESCRIPTION.md` line 161). -/
def EINVAL_RESTART_THRESHOLD : ℤ := 8

/-- Capture/recovery shared state as observed across both threads. -/
structure RecoveryState where
  einvalCount : ℤ
  signalLost : Bool
  patternOn : Bool
  needGlUpdate : Bool
  reopenInProgress : Bool
  lastGoodFrame : ℤ
  lastRecoveredTime : Option ℤ
  handleGen : ℕ
  streamRestarts : ℕ
  verifiedDequeues : ℕ
  deriving Repr, DecidableEq

/-- Events driving the supervisor: main-loop dequeue outcomes, driver
events, the timeout check, and background-thread actions (with the
environment's success/failure outcomes as parameters). -/
inductive RecoveryEv where
  | dqOk (bytes : ℕ) (qbufOk : Bool) (now : ℤ)
  | dqEAgain
  | dqEinval (syncRestartOk : Bool) (now : ℤ)
  | srcChangeValid
  | srcChangeInvalid
  | timeoutCheck (now : ℤ)
  | bgRestartOk (now : ℤ)
  | bgFullReopenOk (now : ℤ)
  | bgRestartFail
  | bgVerifyOk (now : ℤ)
  | bgVerifyFail
  | glApply

/-- Embeds `start_background_reopen`: compare-and-set of `auto_reopen_in_progress`
(spawning the worker); a no-op when a reopen is already in progress. -/
def startBackgroundReopen (s : RecoveryState) : RecoveryState :=
  { s with reopenInProgress := true }

/-- One supervisor step.  Each branch mirrors the corresponding source
lines of `PR_DESCRIPTION.md`; see the inline notes. -/
def recoveryStep (s : RecoveryState) (e : RecoveryEv) : RecoveryState :=
  match e with
  | .dqEAgain => s
  | .dqEinval restarted now =>
    -- main loop skips DQBUF while a background reopen is in progress (line 1020)
    if s.reopenInProgress then s
    else
      -- lines 1034-1056: count, signal degraded immediately, then either
      -- the synchronous restart loop (at the threshold) or an eager
      -- background reopen ("start background reopen early", line 1055)
      let s1 := { s with einvalCount := s.einvalCount + 1, signalLost := true, patternOn := true }
      if s1.einvalCount ≥ EINVAL_RESTART_THRESHOLD then
        if restarted then
          { s1 with streamRestarts := s1.streamRestarts + 1, einvalCount := 0,
                    lastGoodFrame := now, lastRecoveredTime := some now,
                    signalLost := false, patternOn := false }
        else
          startBackgroundReopen { s1 with streamRestarts := s1.streamRestarts + 1 }
      else
        startBackgroundReopen s1
  | .dqOk bytes qbufOk now =>
    if s.reopenInProgress then s
    else
      -- lines 1071-1076: zero-byte frame signals loss and starts reopen;
      -- lines 1147-1156: successful requeue resets timers/counter and
      -- clears the loss state
      let s1 :=
        if bytes = 0 then startBackgroundReopen { s with signalLost := true, patternOn := true }
        else s
      if qbufOk then
        let s2 := { s1 with lastGoodFrame := now, lastRecoveredTime := some now, einvalCount := 0 }
        if s2.signalLost then { s2 with signalLost := false, patternOn := false } else s2
      else s1
  | .srcChangeValid => s
  | .srcChangeInvalid =>
      -- line 1167: unreadable or zero-sized new format
      startBackgroundReopen { s with signalLost := true, patternOn := true }
  | .timeoutCheck now =>
      -- lines 1191-1206
      if s.signalLost = false ∧ now - s.lastGoodFrame > PATTERN_TIMEOUT_MS then
        let grace : Bool :=
          match s.lastRecoveredTime with
          | some t => decide (now - t < RECOVERY_GRACE_MS)
          | none => false
        if grace then s
        else startBackgroundReopen { s with signalLost := true, patternOn := true }
      else s
  | .bgRestartOk now =>
      -- manual_restart_v4l_only lines 839-848: restart_v4l_stream succeeds
      if s.reopenInProgress then
        { s with streamRestarts := s.streamRestarts + 1,
                 lastGoodFrame := now, lastRecoveredTime := some now,
                 einvalCount := 0, signalLost := false, needGlUpdate := true }
      else s
  | .bgFullReopenOk now =>
      -- manual_restart_v4l_only lines 851-914: soft path failed, the
      -- handle is closed and reopened, then the same state updates
      if s.reopenInProgress then
        { s with streamRestarts := s.streamRestarts + 1, handleGen := s.handleGen + 1,
                 lastGoodFrame := now, lastRecoveredTime := some now,
                 einvalCount := 0, signalLost := false, needGlUpdate := true }
      else s
  | .bgRestartFail =>
      if s.reopenInProgress then { s with streamRestarts := s.streamRestarts + 1 } else s
  | .bgVerifyOk now =>
      -- verification loop lines 935-954 and 975-978: a dequeued buffer
      -- with nonzero bytes is requeued, the thread signals and exits
      if s.reopenInProgress then
        { s with verifiedDequeues := s.verifiedDequeues + 1,
                 lastGoodFrame := now, lastRecoveredTime := some now, einvalCount := 0,
                 needGlUpdate := true, reopenInProgress := false }
      else s
  | .bgVerifyFail => s
  | .glApply =>
      -- main loop lines 996-1017: apply the resync, clear the pattern
      if s.needGlUpdate then
        { s with signalLost := false, patternOn := false, needGlUpdate := false }
      else s

/-- Startup state: counters zero, no loss, timestamps at startup time 0,
`last_recovered_time` at its default (never recovered). -/
def initRecoveryState : RecoveryState :=
  { einvalCount := 0, signalLost := false, patternOn := false, needGlUpdate := false,
    reopenInProgress := false, lastGoodFrame := 0, lastRecoveredTime := none,
    handleGen := 0, streamRestarts := 0, verifiedDequeues := 0 }

/-- Run an event trace from the startup state. -/
def recoveryRun (evs : List RecoveryEv) : RecoveryState :=
  evs.foldl recoveryStep initRecoveryState

/-! ## Theorems -/

/-- C9: For every rotation step r in {0,1,2,3} and every sample coordinate
uv in [0,1]^2, applying the quarter-turn rotation about the sample-space
center (`rotate90_centered`) with step r four times in succession returns
the original coordinate uv. -/
theorem c9_rotation_identity (r : ℤ) (uv : ℚ × ℚ)
    (hr : r = 0 ∨ r = 1 ∨ r = 2 ∨ r = 3)
    (hu : 0 ≤ uv.1 ∧ uv.1 ≤ 1) (hv : 0 ≤ uv.2 ∧ uv.2 ≤ 1) :
    rotate90_centered (rotate90_centered (rotate90_centered (rotate90_centered uv r) r) r) r
      = uv := by
  obtain ⟨x, y⟩ := uv
  rcases hr with rfl | rfl | rfl | rfl <;>
    simp [rotate90_centered] <;> norm_num

/-- Witness for C9 at r = 1, uv = (1/3, 1/4). -/
theorem c9_rotation_identity_witness :
    rotate90_centered (rotate90_centered (rotate90_centered
      (rotate90_centered ((1/3 : ℚ), (1/4 : ℚ)) 1) 1) 1) 1 = ((1/3 : ℚ), (1/4 : ℚ)) :=
  c9_rotation_identity 1 (1/3, 1/4) (by norm_num) (by norm_num) (by norm_num)

/-- C10: starting from rotation state 0, the `SDLK_r` handler always adds
2 modulo 4, so every state reachable through the runtime control surface
has rotation 0 or 2; the quarter-turn states 1 and 3 are unreachable. -/
theorem c10_rotation_invariant (s : RenderControlState) (h : ReachableControl s) :
    s.rotation = 0 ∨ s.rotation = 2 := by
  induction h with
  | init => left; rfl
  | step s k hs ih =>
    cases k with
    | keyH => simpa [controlStep] using ih
    | keyV => simpa [controlStep] using ih
    | keyR =>
      rcases ih with h | h <;> simp only [controlStep, h] <;> decide

/-- Witness for C10 at the state after one `SDLK_r` press. -/
theorem c10_rotation_invariant_witness :
    (controlStep initControlState ControlKey.keyR).rotation = 0 ∨
      (controlStep initControlState ControlKey.keyR).rotation = 2 :=
  c10_rotation_invariant _ (ReachableControl.step _ _ ReachableControl.init)

/-- C1 (code bug): a reachable execution of the recovery step relation in
which `need_gl_update` is raised with zero verified dequeues: a single
EINVAL below the threshold starts the background reopen
("start background reopen early", PR line 1055), and the background
worker's `manual_restart_v4l_only` raises `need_gl_update` immediately on
bare `restart_v4l_stream` success (PR line 845), before the verification
loop ever dequeues a frame. -/
theorem c1_resync_before_verification_trace :
    (recoveryRun [RecoveryEv.dqEinval false 0, RecoveryEv.bgRestartOk 5]).needGlUpdate = true
      ∧ (recoveryRun [RecoveryEv.dqEinval false 0,
          RecoveryEv.bgRestartOk 5]).verifiedDequeues = 0 := by
  decide

/-- C2 counterexample: after a single format-changed (EINVAL) dequeue error
the consecutive-error count is 1, strictly below the threshold 8, yet the
background reopen has already been initiated. -/
theorem c2_counterexample :
    (recoveryRun [RecoveryEv.dqEinval false 0]).einvalCount = 1
      ∧ (recoveryRun [RecoveryEv.dqEinval false 0]).einvalCount < EINVAL_RESTART_THRESHOLD
      ∧ (recoveryRun [RecoveryEv.dqEinval false 0]).reopenInProgress = true := by
  decide

/-- C2 amended: for every EINVAL dequeue error whose incremented count
stays strictly below the threshold 8, the supervisor keeps counting and
signaling degraded status, performs no synchronous stream restart, and
neither closes nor reopens the device handle in that step — but it does
initiate the asynchronous background reopen immediately. -/
theorem c2_amended_below_threshold_behavior (s : RecoveryState) (b : Bool) (now : ℤ)
    (hro : s.reopenInProgress = false)
    (hc : s.einvalCount + 1 < EINVAL_RESTART_THRESHOLD) :
    (recoveryStep s (RecoveryEv.dqEinval b now)).einvalCount = s.einvalCount + 1
      ∧ (recoveryStep s (RecoveryEv.dqEinval b now)).signalLost = true
      ∧ (recoveryStep s (RecoveryEv.dqEinval b now)).patternOn = true
      ∧ (recoveryStep s (RecoveryEv.dqEinval b now)).reopenInProgress = true
      ∧ (recoveryStep s (RecoveryEv.dqEinval b now)).streamRestarts = s.streamRestarts
      ∧ (recoveryStep s (RecoveryEv.dqEinval b now)).handleGen = s.handleGen := by
  simp only [recoveryStep, hro, Bool.false_eq_true, if_false]
  rw [if_neg (by simpa using not_le.mpr hc)]
  simp [startBackgroundReopen]

/-- Witness for C2 amended at the startup state. -/
theorem c2_amended_witness :
    initRecoveryState.reopenInProgress = false
      ∧ initRecoveryState.einvalCount + 1 < EINVAL_RESTART_THRESHOLD
      ∧ (recoveryStep initRecoveryState (RecoveryEv.dqEinval false 0)).einvalCount
          = initRecoveryState.einvalCount + 1
      ∧ (recoveryStep initRecoveryState (RecoveryEv.dqEinval false 0)).reopenInProgress = true :=
  ⟨by decide, by decide,
    (c2_amended_below_threshold_behavior initRecoveryState false 0 (by decide) (by decide)).1,
    (c2_amended_below_threshold_behavior initRecoveryState false 0 (by decide) (by decide)).2.2.2.1⟩

/-- C7 counterexample: from the startup state, a format-changed (EINVAL)
dequeue error increments the consecutive-error counter but a SOURCE_CHANGE
event with an invalid new format does not — the two are not handled
identically. -/
theorem c7_counterexample :
    (recoveryStep initRecoveryState RecoveryEv.srcChangeInvalid).einvalCount
      ≠ (recoveryStep initRecoveryState (RecoveryEv.dqEinval false 0)).einvalCount := by
  decide

/-- C7 amended: a SOURCE_CHANGE event with an unreadable or zero-sized new
format produces the same immediate degraded-status signaling as a
format-changed dequeue error (signal loss plus fallback pattern) and
starts the background reopen directly, but it leaves the
consecutive-error counter unchanged and bypasses the soft-restart
threshold path (no synchronous stream restart, handle untouched). -/
theorem c7_amended_source_change_behavior (s : RecoveryState) :
    (recoveryStep s RecoveryEv.srcChangeInvalid).signalLost = true
      ∧ (recoveryStep s RecoveryEv.srcChangeInvalid).patternOn = true
      ∧ (recoveryStep s RecoveryEv.srcChangeInvalid).reopenInProgress = true
      ∧ (recoveryStep s RecoveryEv.srcChangeInvalid).einvalCount = s.einvalCount
      ∧ (recoveryStep s RecoveryEv.srcChangeInvalid).streamRestarts = s.streamRestarts
      ∧ (recoveryStep s RecoveryEv.srcChangeInvalid).handleGen = s.handleGen := by
  simp [recoveryStep, startBackgroundReopen]

/-- C6: when no good frame has arrived for more than the 800 ms timeout
and the grace window does not apply, the timeout check declares signal
loss and initiates the background reopen (first conjunct); a verified
recovery at time tv stamps tv as the recovery time (second conjunct);
and while within the 3000 ms grace window after the stamped recovery
time, the timeout check leaves the state untouched — no signal loss, no
reopen (third conjunct). -/
theorem c6_timeout_grace :
    (∀ (s : RecoveryState) (now : ℤ),
      s.signalLost = false →
      now - s.lastGoodFrame > PATTERN_TIMEOUT_MS →
      (∀ t, s.lastRecoveredTime = some t → now - t ≥ RECOVERY_GRACE_MS) →
      (recoveryStep s (RecoveryEv.timeoutCheck now)).signalLost = true
        ∧ (recoveryStep s (RecoveryEv.timeoutCheck now)).reopenInProgress = true)
    ∧ (∀ (s : RecoveryState) (tv : ℤ), s.reopenInProgress = true →
        (recoveryStep s (RecoveryEv.bgVerifyOk tv)).lastRecoveredTime = some tv)
    ∧ (∀ (s : RecoveryState) (tv now : ℤ),
        s.lastRecoveredTime = some tv → now - tv < RECOVERY_GRACE_MS →
        recoveryStep s (RecoveryEv.timeoutCheck now) = s) := by
  refine ⟨?_, ?_, ?_⟩
  · intro s now hsl helapsed hgrace
    have hg : (match s.lastRecoveredTime with
        | some t => decide (now - t < RECOVERY_GRACE_MS)
        | none => false) = false := by
      cases h : s.lastRecoveredTime with
      | none => rfl
      | some t => simpa using not_lt.mpr (hgrace t h)
    simp [recoveryStep, hsl, helapsed, hg, startBackgroundReopen]
  · intro s tv hro
    simp [recoveryStep, hro]
  · intro s tv now hlr hin
    by_cases h : s.signalLost = false ∧ now - s.lastGoodFrame > PATTERN_TIMEOUT_MS
    · simp [recoveryStep, h, hlr, hin]
    · simp [recoveryStep, h]

/-- Witness for C6: escalation at the startup state at time 1000 (no
recovery yet, no grace), and suppression after a verified recovery at
time 100 checked at time 500. -/
theorem c6_timeout_grace_witness :
    ((recoveryStep initRecoveryState (RecoveryEv.timeoutCheck 1000)).signalLost = true
      ∧ (recoveryStep initRecoveryState (RecoveryEv.timeoutCheck 1000)).reopenInProgress = true)
    ∧ recoveryStep
        (recoveryStep (recoveryRun [RecoveryEv.dqEinval false 0]) (RecoveryEv.bgVerifyOk 100))
        (RecoveryEv.timeoutCheck 500)
      = recoveryStep (recoveryRun [RecoveryEv.dqEinval false 0]) (RecoveryEv.bgVerifyOk 100) :=
  ⟨c6_timeout_grace.1 initRecoveryState 1000 (by decide) (by decide)
      (fun t ht => by simp [initRecoveryState] at ht),
    c6_timeout_grace.2.2
      (recoveryStep (recoveryRun [RecoveryEv.dqEinval false 0]) (RecoveryEv.bgVerifyOk 100))
      100 500 (by decide) (by decide)⟩

theorem fillEntries_cons (acc : List (ℤ × ℤ)) (l : String) (ls : List String) :
    fillEntries acc (l :: ls) = fillEntries (fillStep acc l) ls := rfl

/-- The fill loop appends exactly the parsed entries of the lines, cut off
at the remaining capacity. -/
theorem fillEntries_eq_take (lines : List String) (acc : List (ℤ × ℤ)) :
    fillEntries acc lines
      = acc ++ (lines.filterMap parseXYLine).take (offsetCapacity - acc.length) := by
  induction lines generalizing acc with
  | nil => simp [fillEntries]
  | cons l ls ih =>
    by_cases hlen : acc.length < offsetCapacity
    · cases hp : parseXYLine l with
      | some p =>
        have hstep : fillStep acc l = acc ++ [p] := by simp [fillStep, hlen, hp]
        have harith : offsetCapacity - acc.length = (offsetCapacity - (acc.length + 1)) + 1 := by
          omega
        rw [fillEntries_cons, hstep, ih]
        simp only [List.filterMap_cons, hp, List.length_append, List.length_cons,
          List.length_nil, Nat.zero_add]
        rw [harith, List.take_succ_cons, List.append_assoc]
        rfl
      | none =>
        have hstep : fillStep acc l = acc := by simp [fillStep, hlen, hp]
        rw [fillEntries_cons, hstep, ih]
        simp [List.filterMap_cons, hp]
    · have h0 : offsetCapacity - acc.length = 0 := by omega
      have hstep : fillStep acc l = acc := by simp [fillStep, hlen]
      rw [fillEntries_cons, hstep, ih]
      simp [h0]

/-- The whole three-file fold appends the parsed entries of all files in
order, cut off at the remaining capacity. -/
theorem loadOffsets_fold (files : List (Option (List String))) (acc : List (ℤ × ℤ)) :
    files.foldl (fun a f => match f with
        | some lines => fillEntries a lines
        | none => a) acc
      = acc ++ ((moduleLines files).filterMap parseXYLine).take (offsetCapacity - acc.length) := by
  induction files generalizing acc with
  | nil => simp [moduleLines]
  | cons f fs ih =>
    cases f with
    | none =>
      rw [List.foldl_cons]
      rw [ih]
      simp [moduleLines]
    | some lines =>
      rw [List.foldl_cons]
      rw [ih]
      rw [show (match some lines with
          | some l => fillEntries acc l
          | none => acc) = fillEntries acc lines from rfl]
      rw [fillEntries_eq_take]
      have hml : moduleLines (some lines :: fs) = lines ++ moduleLines fs := by
        simp [moduleLines]
      have hlen :
          (acc ++ (lines.filterMap parseXYLine).take (offsetCapacity - acc.length)).length
            = acc.length
              + min (offsetCapacity - acc.length) (lines.filterMap parseXYLine).length := by
        simp [List.length_take]
      rw [hml, List.filterMap_append, List.take_append_eq_append_take, hlen]
      rw [show offsetCapacity
            - (acc.length
              + min (offsetCapacity - acc.length) (lines.filterMap parseXYLine).length)
          = (offsetCapacity - acc.length) - (lines.filterMap parseXYLine).length from by omega]
      rw [List.append_assoc]

/-- C8: every line the parser rejects (blank, comment, non-numeric) is
skipped by the fill loop: the table produced with such a line present is
identical to the table produced with it removed, so the positions of the
subsequent valid lines do not shift. -/
theorem c8_malformed_line_skipped (acc : List (ℤ × ℤ)) (pre post : List String) (m : String)
    (hm : parseXYLine m = none) :
    fillEntries acc (pre ++ m :: post) = fillEntries acc (pre ++ post) := by
  rw [fillEntries_eq_take, fillEntries_eq_take]
  simp [List.filterMap_append, List.filterMap_cons, hm]

/-- Witness for C8: a comment line between two valid lines. -/
theorem c8_malformed_line_skipped_witness :
    parseXYLine "# comment" = none
      ∧ fillEntries [] (["-3 5"] ++ "# comment" :: ["0 0", "2 -1"])
          = fillEntries [] (["-3 5"] ++ ["0 0", "2 -1"]) :=
  ⟨by decide,
    c8_malformed_line_skipped [] ["-3 5"] ["0 0", "2 -1"] "# comment" (by decide)⟩

/-- C3 counterexample: with module file 1 holding the single valid line
"1 2" and module file 2 holding "3 4", the claimed block layout would put
file 2's entry at slot 50; the loader instead places it at slot 1 and
leaves slot 50 zero. -/
theorem c3_counterexample :
    (loadOffsetsFromModuleFiles [some ["1 2"], some ["3 4"], none]).getD 1 (0, 0) = (3, 4)
      ∧ (loadOffsetsFromModuleFiles [some ["1 2"], some ["3 4"], none]).getD 50 (0, 0)
          = (0, 0) := by
  decide

/-- C3 amended: populating the table from the module files always yields
exactly the 150-entry capacity; the files' valid lines are concatenated
contiguously in order (each file's entries begin immediately after the
previous file's last entry, not at a fixed 50-slot block boundary),
entries beyond capacity are ignored, and every slot never filled is
zero-filled as (0,0). -/
theorem c3_amended_contiguous_fill (files : List (Option (List String))) :
    loadOffsetsFromModuleFiles files
      = ((moduleLines files).filterMap parseXYLine).take offsetCapacity
          ++ List.replicate
              (offsetCapacity
                - (((moduleLines files).filterMap parseXYLine).take offsetCapacity).length)
              (0, 0)
      ∧ (loadOffsetsFromModuleFiles files).length = offsetCapacity := by
  have hfold := loadOffsets_fold files []
  constructor
  · unfold loadOffsetsFromModuleFiles
    rw [hfold]
    simp
  · unfold loadOffsetsFromModuleFiles
    rw [hfold]
    simp only [List.nil_append, List.length_append, List.length_replicate, List.length_take]
    omega

/-- With `gap_count` equal to the gap list's length (at most the array
capacity 8), the `isGapZero` scan is exactly list membership. -/
theorem isGapZero_len_eq_mem (gaps : List ℤ) (hlen : gaps.length ≤ 8) (x : ℤ) :
    isGapZero (gaps.length : ℤ) gaps x = decide (x ∈ gaps) := by
  by_cases hx : x ∈ gaps
  · obtain ⟨i, hi, hget⟩ := List.mem_iff_getElem.mp hx
    have htrue : isGapZero (gaps.length : ℤ) gaps x = true := by
      refine List.any_eq_true.mpr ⟨i, List.mem_range.mpr (lt_of_lt_of_le hi hlen), ?_⟩
      have h1 : (i : ℤ) < (gaps.length : ℤ) := by exact_mod_cast hi
      have h2 : gaps.getD i 0 = x := by rw [List.getD_eq_getElem _ _ hi, hget]
      rw [Bool.and_eq_true]
      exact ⟨decide_eq_true h1, decide_eq_true h2⟩
    simp [htrue, hx]
  · have hfalse : isGapZero (gaps.length : ℤ) gaps x = false := by
      rw [← Bool.not_eq_true]
      intro hc
      obtain ⟨i, hi8, hb⟩ := List.any_eq_true.mp hc
      rw [Bool.and_eq_true] at hb
      have hi : i < gaps.length := by
        have := of_decide_eq_true hb.1
        exact_mod_cast this
      have hgd : gaps.getD i 0 = x := of_decide_eq_true hb.2
      rw [List.getD_eq_getElem _ _ hi] at hgd
      exact hx (hgd ▸ List.getElem_mem hi)
    simp [hfalse, hx]

/-- Counting the non-gap row boundaries: every `r` in `[0, n)` with
`r < n-1` and `r+1` not a gap, where the gaps are distinct in-range
boundaries, leaves `(n-1) - |gaps|` boundaries. -/
theorem countP_range_gap (n : ℕ) (gr : List ℤ) (hnd : gr.Nodup)
    (hmem : ∀ g ∈ gr, 1 ≤ g ∧ g ≤ (n : ℤ) - 1) :
    (List.range n).countP
        (fun (r : ℕ) => decide ((r : ℤ) < (n : ℤ) - 1) && !decide (((r : ℤ) + 1) ∈ gr))
      + gr.length = n - 1 := by
  induction gr with
  | nil =>
    simp only [List.length_nil, Nat.add_zero]
    have hcong :
        (List.range n).countP
            (fun (r : ℕ) => decide ((r : ℤ) < (n : ℤ) - 1)
              && !decide (((r : ℤ) + 1) ∈ ([] : List ℤ)))
          = (List.range n).countP (fun (r : ℕ) => decide ((r : ℤ) < (n : ℤ) - 1)) := by
      refine List.countP_congr (fun r _ => ?_)
      simp
    rw [hcong]
    cases n with
    | zero => simp
    | succ m =>
      rw [List.range_succ, List.countP_append]
      have h1 : (List.range m).countP
          (fun (r : ℕ) => decide ((r : ℤ) < ((m + 1 : ℕ) : ℤ) - 1)) = m := by
        rw [List.countP_eq_length.mpr, List.length_range]
        intro r hr
        have : r < m := List.mem_range.mp hr
        simp only [decide_eq_true_eq]
        push_cast
        omega
      have h2 : List.countP
          (fun (r : ℕ) => decide ((r : ℤ) < ((m + 1 : ℕ) : ℤ) - 1)) [m] = 0 := by
        simp only [List.countP_cons, List.countP_nil, decide_eq_true_eq]
        have : ¬ ((m : ℤ) < ((m + 1 : ℕ) : ℤ) - 1) := by push_cast; omega
        simp [this]
      rw [h1, h2]
      omega
  | cons g gt ih =>
    have hg := hmem g (List.mem_cons_self g gt)
    have hnd2 := List.nodup_cons.mp hnd
    have ihh := ih hnd2.2 (fun x hx => hmem x (List.mem_cons_of_mem g hx))
    have hr0cast : (((g - 1).toNat : ℕ) : ℤ) = g - 1 := Int.toNat_of_nonneg (by omega)
    set r0 : ℕ := (g - 1).toNat with hr0def
    -- split the cons membership out of the predicate
    have hsplit :
        (List.range n).countP
            (fun (r : ℕ) => decide ((r : ℤ) < (n : ℤ) - 1) && !decide (((r : ℤ) + 1) ∈ g :: gt))
          = ((List.range n).filter
              (fun (r : ℕ) => decide ((r : ℤ) < (n : ℤ) - 1)
                && !decide (((r : ℤ) + 1) ∈ gt))).countP
              (fun (r : ℕ) => r ≠ r0) := by
      rw [List.countP_eq_length_filter, List.countP_eq_length_filter, List.filter_filter]
      congr 1
      refine List.filter_congr (fun r _ => ?_)
      have hiff : ((r : ℤ) + 1 = g) ↔ r = r0 := by
        constructor
        · intro h
          have : (r : ℤ) = ((r0 : ℕ) : ℤ) := by rw [hr0cast]; omega
          exact_mod_cast this
        · intro h
          subst h
          omega
      by_cases hlt : (r : ℤ) < (n : ℤ) - 1
      · by_cases hmg : (r : ℤ) + 1 = g
        · have hdf : decide (r ≠ r0) = false := by simp [hiff.mp hmg]
          have hmemT : ((r : ℤ) + 1 ∈ g :: gt) := List.mem_cons.mpr (Or.inl hmg)
          simp [hlt, hmemT, hdf]
        · have hner : r ≠ r0 := fun hr => hmg (hiff.mpr hr)
          by_cases hmt : (r : ℤ) + 1 ∈ gt
          · have hmemT : ((r : ℤ) + 1 ∈ g :: gt) := List.mem_cons.mpr (Or.inr hmt)
            simp [hlt, hmemT, hmt, hner]
          · have hmemF : ((r : ℤ) + 1 ∉ g :: gt) := by
              rw [List.mem_cons]
              push_neg
              exact ⟨hmg, hmt⟩
            simp [hlt, hmemF, hmt, hner]
      · simp [hlt]
    set L := (List.range n).filter
        (fun (r : ℕ) => decide ((r : ℤ) < (n : ℤ) - 1) && !decide (((r : ℤ) + 1) ∈ gt))
      with hLdef
    have hLnodup : L.Nodup := (List.nodup_range n).filter _
    have hr0L : r0 ∈ L := by
      rw [hLdef, List.mem_filter]
      constructor
      · refine List.mem_range.mpr ?_
        have : ((r0 : ℕ) : ℤ) < (n : ℤ) := by rw [hr0cast]; omega
        exact_mod_cast this
      · have h1 : ((r0 : ℕ) : ℤ) < (n : ℤ) - 1 := by rw [hr0cast]; omega
        have h2 : ((r0 : ℕ) : ℤ) + 1 ∉ gt := by
          rw [hr0cast]
          have hgg : g - 1 + 1 = g := by ring
          rw [hgg]
          exact hnd2.1
        simp [h1, h2]
    have herase :
        L.countP (fun (r : ℕ) => r ≠ r0) = L.length - 1 := by
      rw [List.countP_eq_length_filter]
      have hfeq : L.filter (fun (r : ℕ) => r ≠ r0) = L.filter (fun (r : ℕ) => r != r0) := by
        refine List.filter_congr (fun r _ => ?_)
        by_cases h : r = r0
        · simp [h, bne]
        · simp [h, bne, beq_iff_eq]
      rw [hfeq, ← hLnodup.erase_eq_filter r0, List.length_erase_of_mem hr0L]
    have hLcount :
        (List.range n).countP
            (fun (r : ℕ) => decide ((r : ℤ) < (n : ℤ) - 1) && !decide (((r : ℤ) + 1) ∈ gt))
          = L.length := by
      rw [List.countP_eq_length_filter]
    have hLpos : 1 ≤ L.length := List.length_pos.mpr (List.ne_nil_of_mem hr0L)
    rw [hsplit, herase]
    rw [hLcount] at ihh
    simp only [List.length_cons]
    omega

/-- The grid-height fold written as `init + n·tileH + Σ spacing terms`. -/
theorem foldl_height (c : ℚ) (q : ℕ → ℚ) (l : List ℕ) (init : ℚ) :
    l.foldl (fun (h : ℚ) (r : ℕ) => h + c + q r) init
      = init + l.length * c + (l.map q).sum := by
  induction l generalizing init with
  | nil => simp
  | cons a l ih =>
    rw [List.foldl_cons, ih, List.map_cons, List.sum_cons, List.length_cons]
    push_cast
    ring

/-- A sum of `if p r then c else 0` terms counts the satisfied rows. -/
theorem sum_map_ite_count (p : ℕ → Bool) (c : ℚ) (l : List ℕ) :
    (l.map (fun r => if p r then c else 0)).sum = c * (l.countP p : ℚ) := by
  induction l with
  | nil => simp
  | cons a l ih =>
    rw [List.map_cons, List.sum_cons, ih, List.countP_cons]
    cases h : p a
    · simp [h]
    · simp only [h, if_true]
      push_cast
      ring

/-- C4: for every gap set of distinct 1-based row boundaries within the
grid (at most the 8-entry capacity), the computed total grid height is
the sum of all tile heights plus `spacing × (rows − 1 − |GapSet|)`: each
gap entry removes exactly one inter-row spacing from the no-gap
baseline. -/
theorem c4_grid_height_gap_collapse (numRows : ℤ) (tileH spacingY : ℚ) (gaps : List ℤ)
    (h1 : 1 ≤ numRows) (hlen : gaps.length ≤ 8) (hnd : gaps.Nodup)
    (hmem : ∀ g ∈ gaps, 1 ≤ g ∧ g ≤ numRows - 1) :
    computeTotalGridHeight numRows tileH spacingY (gaps.length : ℤ) gaps
      = (numRows : ℚ) * tileH + spacingY * ((numRows : ℚ) - 1 - (gaps.length : ℚ)) := by
  have hn : ((numRows.toNat : ℕ) : ℤ) = numRows := Int.toNat_of_nonneg (by omega)
  unfold computeTotalGridHeight
  rw [foldl_height]
  rw [sum_map_ite_count]
  have hcong :
      (List.range numRows.toNat).countP
          (fun (r : ℕ) => decide ((r : ℤ) < numRows - 1)
            && !isGapZero (gaps.length : ℤ) gaps ((r : ℤ) + 1))
        = (List.range numRows.toNat).countP
          (fun (r : ℕ) => decide ((r : ℤ) < ((numRows.toNat : ℕ) : ℤ) - 1)
            && !decide (((r : ℤ) + 1) ∈ gaps)) := by
    refine List.countP_congr (fun r _ => ?_)
    rw [isGapZero_len_eq_mem gaps hlen, hn]
  rw [hcong]
  have hcount := countP_range_gap numRows.toNat gaps hnd
    (by intro g hg; rw [hn]; exact hmem g hg)
  have hge : 1 ≤ numRows.toNat := by omega
  have hcountQ :
      ((List.range numRows.toNat).countP
          (fun (r : ℕ) => decide ((r : ℤ) < ((numRows.toNat : ℕ) : ℤ) - 1)
            && !decide (((r : ℤ) + 1) ∈ gaps)) : ℚ)
        = ((numRows.toNat : ℚ) - 1) - (gaps.length : ℚ) := by
    have hq : ((List.range numRows.toNat).countP
          (fun (r : ℕ) => decide ((r : ℤ) < ((numRows.toNat : ℕ) : ℤ) - 1)
            && !decide (((r : ℤ) + 1) ∈ gaps)) + gaps.length : ℚ)
        = ((numRows.toNat - 1 : ℕ) : ℚ) := by exact_mod_cast congrArg (Nat.cast : ℕ → ℚ) hcount
    push_cast [Nat.cast_sub hge] at hq
    linarith
  rw [hcountQ]
  have hQ : ((numRows.toNat : ℕ) : ℚ) = (numRows : ℚ) := by
    exact_mod_cast congrArg (Int.cast : ℤ → ℚ) hn
  rw [List.length_range, hQ]
  ring

/-- Witness for C4: the spec example, GapSet {5, 10} over 15 rows with
tile height 144 and spacing 90 collapses exactly two spacings:
15·144 + 90·(15 − 1 − 2) = 3240. -/
theorem c4_grid_height_gap_collapse_witness :
    computeTotalGridHeight 15 144 90 ((([5, 10] : List ℤ).length : ℤ)) [5, 10]
      = (15 : ℚ) * 144 + 90 * ((15 : ℚ) - 1 - (([5, 10] : List ℤ).length : ℚ)) :=
  c4_grid_height_gap_collapse 15 144 90 [5, 10] (by norm_num) (by norm_num)
    (by norm_num) (by intro g hg; fin_cases hg <;> norm_num)

/-- C5: the tile rectangle the shader tests against is exactly the
nominal rectangle translated by the tile's (dx, dy) offset (first
conjunct), and an output pixel that resolves to tile (col, row) but falls
outside that shifted rectangle is rendered as background — the mapper
returns no sample coordinate (second conjunct). -/
theorem c5_offset_tile_rect (cfg : ShaderConfig) (outPx : ℚ × ℚ) (row : ℕ)
    (hrow : cfg.findTileRow (cfg.totalGridH - outPx.2) = some row)
    (hcol : ¬(cfg.tileColOf outPx.1 < 0 ∨ cfg.tileColOf outPx.1 ≥ cfg.numTilesPerRow))
    (hout : ¬(outPx.1 ≥ (cfg.tileRectStart (cfg.tileColOf outPx.1) row).1
        ∧ outPx.1 < (cfg.tileRectStart (cfg.tileColOf outPx.1) row).1 + cfg.tileW
        ∧ outPx.2 ≥ (cfg.tileRectStart (cfg.tileColOf outPx.1) row).2
        ∧ outPx.2 < (cfg.tileRectStart (cfg.tileColOf outPx.1) row).2 + cfg.tileH)) :
    cfg.tileRectStart (cfg.tileColOf outPx.1) row
        = ((cfg.nominalTileStart (cfg.tileColOf outPx.1) row).1
            + ((cfg.tileOffset (cfg.tileColOf outPx.1) row).1 : ℚ),
          (cfg.nominalTileStart (cfg.tileColOf outPx.1) row).2
            + ((cfg.tileOffset (cfg.tileColOf outPx.1) row).2 : ℚ))
      ∧ cfg.shaderMapPixel outPx = none := by
  refine ⟨rfl, ?_⟩
  unfold ShaderConfig.shaderMapPixel
  simp only [hrow]
  rw [if_neg hcol, if_neg hout]

/-- Witness for C5 with `demoConfig`: tile (0,0) has nominal origin
(100, 200), offset (-3, 5), displayed origin (97, 205); the pixel
(120, 203) resolves to that tile but lies above the shifted rectangle, so
it renders background. -/
theorem c5_offset_tile_rect_witness :
    demoConfig.nominalTileStart 0 0 = ((100 : ℚ), (200 : ℚ))
      ∧ demoConfig.tileRectStart 0 0 = ((97 : ℚ), (205 : ℚ))
      ∧ demoConfig.shaderMapPixel ((120 : ℚ), (203 : ℚ)) = none := by
  have h3 : Int.toNat (3 : ℤ) = 3 := rfl
  have htot : demoConfig.totalGridH = 300 := by
    norm_num [ShaderConfig.totalGridH, demoConfig, computeTotalGridHeight,
      List.range_succ, isGapZero, h3]
  have hnom : demoConfig.nominalTileStart 0 0 = ((100 : ℚ), (200 : ℚ)) := by
    unfold ShaderConfig.nominalTileStart
    rw [htot]
    norm_num [ShaderConfig.tileStartYTop, demoConfig]
  have hoff : demoConfig.tileOffset 0 0 = (-3, 5) := by
    norm_num [ShaderConfig.tileOffset, demoConfig, clampI]
  have hrect : demoConfig.tileRectStart 0 0 = ((97 : ℚ), (205 : ℚ)) := by
    rw [ShaderConfig.tileRectStart, hnom, hoff]
    norm_num
  have hcol : demoConfig.tileColOf (120 : ℚ) = 0 := by
    norm_num [ShaderConfig.tileColOf, demoConfig, truncQ]
  have hrow : demoConfig.findTileRow (demoConfig.totalGridH - (203 : ℚ)) = some 0 := by
    rw [htot]
    norm_num [ShaderConfig.findTileRow, ShaderConfig.findTileRowAux, demoConfig,
      List.range_succ]
  refine ⟨hnom, hrect, ?_⟩
  refine (c5_offset_tile_rect demoConfig (120, 203) 0 hrow ?_ ?_).2
  · show ¬(demoConfig.tileColOf (120 : ℚ) < 0
      ∨ demoConfig.tileColOf (120 : ℚ) ≥ demoConfig.numTilesPerRow)
    rw [hcol]
    norm_num [demoConfig]
  · show ¬((120 : ℚ) ≥ (demoConfig.tileRectStart (demoConfig.tileColOf (120 : ℚ)) 0).1
      ∧ (120 : ℚ) < (demoConfig.tileRectStart (demoConfig.tileColOf (120 : ℚ)) 0).1
          + demoConfig.tileW
      ∧ (203 : ℚ) ≥ (demoConfig.tileRectStart (demoConfig.tileColOf (120 : ℚ)) 0).2
      ∧ (203 : ℚ) < (demoConfig.tileRectStart (demoConfig.tileColOf (120 : ℚ)) 0).2
          + demoConfig.tileH)
    rw [hcol, hrect]
    norm_num [demoConfig]

end HdmiDisplay
